import Mathlib

/-! Verification of funkode-backend, `controllers/authController.js`.

A shallow embedding of the authentication controller.  Every handler of the
JavaScript module is an `async (req, res, next) => ...` function; it is embedded
as a computation over an explicit state that holds the request object, the
persisted user collection and the ordered list of calls the handler made on its
collaborators (database, token library, mailer, response object, `next`).
A computation either resolves or rejects, as the promise of the async function
does.
-/

namespace AuthController

/-! ## JavaScript values and truthiness -/

/-- JSON scalars a request body field or a document field can hold. -/
inductive JsValue where
  | undefined
  | null
  | bool (b : Bool)
  | number (n : Int)
  | string (s : String)
  deriving DecidableEq, Repr

/-- JavaScript truthiness (`!!v`). -/
def JsValue.truthy : JsValue → Bool
  | .undefined => false
  | .null => false
  | .bool b => b
  | .number n => n != 0
  | .string s => s != ""

/-! ## Data model -/

/-- The user document (fields read or written by the controller). -/
structure User where
  _id : Nat
  name : JsValue
  email : JsValue
  role : String
  password : JsValue
  passwordConfirm : JsValue
  passwordChangedAt : JsValue
  passwordResetToken : Option String
  passwordResetExpires : Option Nat
  deriving DecidableEq, Repr

/-- Modelled from the spec: the `AppError` class of `utils/appError`, which is
not part of this source file.  The spec describes it as an operational failure
carrying a human-readable message and an HTTP status code; the record keeps the
two constructor arguments as passed, a missing second argument being `none`. -/
structure AppError where
  message : String
  statusCode : Option Nat
  deriving DecidableEq, Repr

/-- Values that can be thrown, reject a promise, or be handed to `next`. -/
inductive Thrown where
  | appError (e : AppError)
  | typeError (msg : String)
  | failure (msg : String)
  deriving DecidableEq, Repr

/-- The payload of a verified token: `decoded.id` and `decoded.iat`. -/
structure Decoded where
  id : Nat
  iat : Nat
  deriving DecidableEq, Repr

/-- The request body fields the controller reads. -/
structure Body where
  name : JsValue
  email : JsValue
  password : JsValue
  passwordConfirm : JsValue
  passwordChangedAt : JsValue
  passwordCurrent : JsValue
  deriving DecidableEq, Repr

/-- The request object: `req.headers.authorization`, `req.body`,
`req.params.token`, `req.user`, `req.protocol` and `req.get('host')`. -/
structure Request where
  authorization : Option String
  body : Body
  token : String
  user : Option User
  protocol : String
  host : String
  deriving DecidableEq, Repr

/-- The object handed to `User.create` by `signup`. -/
structure SignupFields where
  name : JsValue
  email : JsValue
  password : JsValue
  passwordConfirm : JsValue
  passwordChangedAt : JsValue
  deriving DecidableEq, Repr

/-- The options object handed to `sendEmail`. -/
structure EmailOptions where
  email : JsValue
  subject : String
  message : String
  deriving DecidableEq, Repr

/-- The cookie options built by `createSendToken`; `secure` is only present in
production. -/
structure CookieParams where
  expiresIn : Nat
  httpOnly : Bool
  secure : Option Bool
  deriving DecidableEq, Repr

/-- The JSON bodies the module writes: `{status, token?, data?: {user}, message?}`. -/
structure ResponseBody where
  status : String
  token : Option String
  user : Option User
  message : Option String
  deriving DecidableEq, Repr

/-- Calls on the database collaborator. -/
inductive DbOp where
  | create (fields : SignupFields)
  | findOneByEmail (email : JsValue)
  | findById (id : Nat)
  | findOneByResetToken (passwordResetToken : String) (gt : Nat)
  | save (doc : User) (validateBeforeSave : Bool)
  deriving DecidableEq, Repr

/-- Observable calls a handler makes, in program order. -/
inductive Event where
  | db (op : DbOp)
  | correctPassword (candidate stored : JsValue)
  | jwtVerify (token : String)
  | jwtSign (id : Nat)
  | consoleLog
  | sendEmail (options : EmailOptions)
  | cookie (name value : String) (params : CookieParams)
  | status (code : Nat)
  | json (body : ResponseBody)
  | next (err : Option Thrown)
  deriving DecidableEq, Repr

/-- The collaborators and configuration the module closes over. -/
structure Env where
  /-- `jwt.sign({ id }, JWT_SECRET, { expiresIn: JWT_EXPIRES_IN })`. -/
  sign : Nat → String
  /-- `promisify(jwt.verify)(token, JWT_SECRET)`: the decoded payload, or a rejection. -/
  verify : String → Except Thrown Decoded
  /-- How the promise returned by `user.correctPassword(candidate, stored)` settles. -/
  correctPassword : JsValue → JsValue → Except Thrown Bool
  /-- The model method `user.changePasswordAfter(iat)`. -/
  changePasswordAfter : User → Nat → Bool
  /-- The random plaintext token drawn by `user.createPasswordResetToken()`. -/
  randomToken : User → String
  /-- `crypto.createHash('sha256').update(s).digest('hex')`. -/
  sha256hex : String → String
  /-- How the promise returned by `sendEmail(options)` settles. -/
  sendEmail : EmailOptions → Except Thrown Unit
  /-- `Date.now()`. -/
  now : Nat
  /-- `process.env.HTTPS_COOKIE_EXPIRES_IN`. -/
  HTTPS_COOKIE_EXPIRES_IN : Nat
  /-- `process.env.NODE_ENV`. -/
  NODE_ENV : String
  /-- A database call may reject (connection loss, validation, duplicate key). -/
  dbError : DbOp → Option Thrown
  /-- The document `User.create` builds from the submitted fields. -/
  newUser : List User → SignupFields → User
  /-- The password fields after the model's save middleware (hashing) ran:
  `password`, `passwordConfirm`, `passwordChangedAt`. -/
  preSave : User → JsValue × JsValue × JsValue

/-! ## Async computations -/

/-- What a handler can see and change: the request object, the persisted
collection, and the calls made so far. -/
structure St where
  req : Request
  users : List User
  trace : List Event
  deriving DecidableEq, Repr

/-- An async function body: from a state to a settled promise and a new state. -/
def Async (α : Type) : Type := St → Except Thrown α × St

/-- A value that resolves at once. -/
def Async.pure {α : Type} (a : α) : Async α := fun s => (.ok a, s)

/-- Sequencing; a rejection (or a throw) skips the rest of the body. -/
def Async.bind {α β : Type} (m : Async α) (f : α → Async β) : Async β := fun s =>
  match m s with
  | (.ok a, s1) => f a s1
  | (.error e, s1) => (.error e, s1)

instance : Monad Async where
  pure := Async.pure
  bind := Async.bind

/-- Throw or reject with `e`. -/
def throwJs {α : Type} (e : Thrown) : Async α := fun s => (.error e, s)

/-- Record a call on a collaborator. -/
def emit (ev : Event) : Async Unit := fun s => (.ok (), { s with trace := s.trace ++ [ev] })

/-- Read the persisted collection. -/
def getUsers : Async (List User) := fun s => (.ok s.users, s)

/-- Replace the persisted collection. -/
def setUsers (us : List User) : Async Unit := fun s => (.ok (), { s with users := us })

/-- Read the request object. -/
def getReq : Async Request := fun s => (.ok s.req, s)

/-- The assignment `req.user = u`. -/
def setReqUser (u : User) : Async Unit := fun s =>
  (.ok (), { s with req := { s.req with user := some u } })

/-- Lift a settled promise. -/
def settle {α : Type} (r : Except Thrown α) : Async α := fun s => (r, s)

/-- Calling `next(err)` / `next()`. -/
def next (err : Option Thrown) : Async Unit := emit (.next err)

/-- What an expression under `await` or `!` evaluates to: a plain value or a
promise object (with the way it will settle). -/
inductive Awaitable where
  | value (v : JsValue)
  | promise (settles : Except Thrown JsValue)

/-- The operator `!x`.  A promise is an object, hence truthy. -/
def jsNot : Awaitable → Awaitable
  | .value v => .value (.bool (!v.truthy))
  | .promise _ => .value (.bool false)

/-- The operator `await x`: a plain value is returned as is, a promise is
waited for. -/
def await : Awaitable → Async JsValue
  | .value v => Async.pure v
  | .promise r => settle r

/-! ## The database collaborator over the explicit collection -/

/-- Run a database call: it is recorded, and rejects when the collaborator fails. -/
def dbCall (env : Env) (op : DbOp) : Async Unit := do
  emit (.db op)
  match env.dbError op with
  | some e => throwJs e
  | none => Async.pure ()

/-- `User.findOne({ email })`. -/
def findOneByEmail (env : Env) (email : JsValue) : Async (Option User) := do
  dbCall env (.findOneByEmail email)
  let users ← getUsers
  Async.pure (users.find? (fun u => u.email == email))

/-- `User.findById(id)`. -/
def findById (env : Env) (id : Nat) : Async (Option User) := do
  dbCall env (.findById id)
  let users ← getUsers
  Async.pure (users.find? (fun u => u._id == id))

/-- The filter `{ passwordResetToken: h, passwordResetExpires: { $gt: t } }`: the
stored hash is `h` and the stored expiry is strictly greater than `t`. -/
def resetTokenFilter (h : String) (t : Nat) (u : User) : Bool :=
  u.passwordResetToken == some h &&
    (match u.passwordResetExpires with
     | some e => decide (t < e)
     | none => false)

/-- `User.findOne({ passwordResetToken: h, passwordResetExpires: { $gt: t } })`. -/
def findOneByResetToken (env : Env) (h : String) (t : Nat) : Async (Option User) := do
  dbCall env (.findOneByResetToken h t)
  let users ← getUsers
  Async.pure (users.find? (resetTokenFilter h t))

/-- Replace the stored document that has the `_id` of `doc`. -/
def replaceDoc (doc : User) : List User → List User
  | [] => []
  | u :: us => if u._id == doc._id then doc :: us else u :: replaceDoc doc us

/-- The document after the model's save middleware ran: the three password
fields are rewritten (hashing), every other field is kept. -/
def savedDoc (env : Env) (user : User) : User :=
  { user with
    password := (env.preSave user).1
    passwordConfirm := (env.preSave user).2.1
    passwordChangedAt := (env.preSave user).2.2 }

/-- Modelled from the spec: `user.save(options)` of the user model, which is not
part of this source file.  Persisting triggers the model's password hashing
(the spec's "persists (triggering normal password hashing/validation)"); the
middleware rewrites the three password fields only, and the stored document
with the same `_id` is replaced.  The in-memory document is updated as well. -/
def save (env : Env) (user : User) (validateBeforeSave : Bool) : Async User := do
  dbCall env (.save user validateBeforeSave)
  let saved := savedDoc env user
  let users ← getUsers
  setUsers (replaceDoc saved users)
  Async.pure saved

/-- `User.create(fields)`: the new document is validated, hashed and inserted. -/
def create (env : Env) (fields : SignupFields) : Async User := do
  dbCall env (.create fields)
  let users ← getUsers
  let u := env.newUser users fields
  setUsers (users ++ [u])
  Async.pure u

/-! ## `authController.js` -/

/-- `signToken(id)`. -/
def signToken (env : Env) (id : Nat) : Async String := do
  emit (.jwtSign id)
  Async.pure (env.sign id)

/-- `createSendToken(user, statusCode, res)`. -/
def createSendToken (env : Env) (user : User) (statusCode : Nat) : Async Unit := do
  let token ← signToken env user._id
  let cookieParams : CookieParams :=
    { expiresIn := env.now + env.HTTPS_COOKIE_EXPIRES_IN * 24 * 60 * 60 * 1000
      httpOnly := true
      secure := if env.NODE_ENV == "production" then some true else none }
  emit (.cookie "jwt" token cookieParams)
  let user := { user with password := JsValue.undefined }
  emit (.status statusCode)
  emit (.json { status := "success", token := some token, user := some user, message := none })

/-- The async function handed to `catchAsync` for `exports.login`. -/
def loginAsync (env : Env) : Async Unit := do
  let req ← getReq
  let email := req.body.email
  let password := req.body.password
  if !email.truthy || !password.truthy then
    next (some (.appError ⟨"Please provide email and password", some 400⟩))
  else
    let user ← findOneByEmail env email
    match user with
    | none => next (some (.appError ⟨"Incorrect mail or password", some 401⟩))
    | some user =>
      emit (.correctPassword password user.password)
      let ok ← await (.promise ((env.correctPassword password user.password).map JsValue.bool))
      if !ok.truthy then
        next (some (.appError ⟨"Incorrect mail or password", some 401⟩))
      else
        createSendToken env user 200

/-- The async function handed to `catchAsync` for `exports.signup`. -/
def signupAsync (env : Env) : Async Unit := do
  let req ← getReq
  let newUser ← create env
    { name := req.body.name
      email := req.body.email
      password := req.body.password
      passwordConfirm := req.body.passwordConfirm
      passwordChangedAt := req.body.passwordChangedAt }
  createSendToken env newUser 201

/-- `String.prototype.startsWith`. -/
def startsWith (s p : String) : Bool := p.data.isPrefixOf s.data

/-- `String.prototype.split(' ')` on the characters of a string: the segments
between single spaces, empty segments included. -/
def splitOnSpace : List Char → List (List Char)
  | [] => [[]]
  | c :: cs =>
    match splitOnSpace cs with
    | [] => if c = ' ' then [[], []] else [[c]]
    | seg :: rest => if c = ' ' then [] :: seg :: rest else (c :: seg) :: rest

/-- `s.split(' ')`. -/
def split (s : String) : List String := (splitOnSpace s.data).map String.mk

/-- Step 1 of `protect`: the variable `token` after the `if`; `none` is
`undefined`. -/
def bearerToken (authorization : Option String) : Option String :=
  match authorization with
  | none => none
  | some a => if a != "" && startsWith a "Bearer" then (split a)[1]? else none

/-- The async function handed to `catchAsync` for `exports.protect`. -/
def protectAsync (env : Env) : Async Unit := do
  let req ← getReq
  let token := bearerToken req.authorization
  match token with
  | none =>
    next (some (.appError ⟨"You are not logged in! please log in to get access", some 401⟩))
  | some token =>
    if token == "" then
      next (some (.appError ⟨"You are not logged in! please log in to get access", some 401⟩))
    else
      emit (.jwtVerify token)
      let decoded ← settle (env.verify token)
      emit .consoleLog
      let freshUser ← findById env decoded.id
      match freshUser with
      | none =>
        next (some (.appError
          ⟨"The user belonging to this token does no longer exist.", some 401⟩))
      | some freshUser =>
        if env.changePasswordAfter freshUser decoded.iat then
          next (some (.appError
            ⟨"User recenlty changed password! Please log in again.", some 401⟩))
        else
          setReqUser freshUser
          next none

/-- The guard `(req, res, next) => ...` returned by `restrictTo(...roles)`. -/
def restrictToGuard (roles : List String) : Async Unit := do
  let req ← getReq
  match req.user with
  | none => throwJs (.typeError "Cannot read properties of undefined (reading 'role')")
  | some user =>
    if !roles.contains user.role then
      next (some (.appError ⟨"You have no access to perform this action", some 403⟩))
    else
      next none

/-- Modelled from the spec: the model method `user.createPasswordResetToken()`,
which is not part of this source file.  It draws a random token, stores only
its hash and an expiry ten minutes ahead on the document, and returns the
plaintext. -/
def createPasswordResetToken (env : Env) (user : User) : String × User :=
  let resetToken := env.randomToken user
  (resetToken,
    { user with
      passwordResetToken := some (env.sha256hex resetToken)
      passwordResetExpires := some (env.now + 10 * 60 * 1000) })

/-- A `try { body } catch (err) { handler }` block. -/
def tryCatch {α : Type} (body : Async α) (handler : Thrown → Async α) : Async α := fun s =>
  match body s with
  | (.ok a, s1) => (.ok a, s1)
  | (.error e, s1) => handler e s1

/-- The async function assigned to `exports.forgotPassword`. -/
def forgotPasswordAsync (env : Env) : Async Unit := do
  let req ← getReq
  let user ← findOneByEmail env req.body.email
  match user with
  | none => next (some (.appError ⟨"There is no user with email address.", some 404⟩))
  | some user =>
    let (resetToken, user) := createPasswordResetToken env user
    let user ← save env user false
    let resetURL :=
      req.protocol ++ "://" ++ req.host ++ "/api/v1/users/resetPassword/" ++ resetToken
    let message :=
      "Forgot your password? Submit a PATCH request with your new password and passwordConfirm to: "
        ++ resetURL ++ ".\n If you didn'tforgot your password, please ignore this email!"
    emit .consoleLog
    let options : EmailOptions :=
      { email := user.email
        subject := "YOur password reset token (valid for 10 min)"
        message := message }
    let sent ← tryCatch
      (do
        emit (.sendEmail options)
        settle (env.sendEmail options)
        emit (.status 200)
        emit (.json
          { status := "success", token := none, user := none,
            message := some "Token sent to email!" })
        Async.pure true)
      (fun _ => do
        let user := { user with passwordResetToken := none, passwordResetExpires := none }
        let _ ← save env user false
        next (some (.appError
          ⟨"There was an error sending the email. Try again later!", none⟩))
        Async.pure false)
    if sent then next none else Async.pure ()

/-- The async function handed to `catchAsync` for `exports.resetPassword`. -/
def resetPasswordAsync (env : Env) : Async Unit := do
  let req ← getReq
  let hashedToken := env.sha256hex req.token
  let user ← findOneByResetToken env hashedToken env.now
  match user with
  | none => next (some (.appError ⟨"Token is invalid or has expired", some 400⟩))
  | some user =>
    let user :=
      { user with
        password := req.body.password
        passwordConfirm := req.body.passwordConfirm
        passwordResetToken := none
        passwordResetExpires := none }
    let user ← save env user true
    createSendToken env user 400

/-- The async function handed to `catchAsync` for `exports.updatePassword`. -/
def updatePasswordAsync (env : Env) : Async Unit := do
  let req ← getReq
  match req.user with
  | none => throwJs (.typeError "Cannot read properties of undefined (reading 'id')")
  | some reqUser =>
    let user ← findById env reqUser._id
    match user with
    | none => throwJs (.typeError "Cannot read properties of null (reading 'correctPassword')")
    | some user =>
      emit (.correctPassword req.body.passwordCurrent user.password)
      let wrong ← await (jsNot (.promise
        ((env.correctPassword req.body.passwordCurrent user.password).map JsValue.bool)))
      if wrong.truthy then
        next (some (.appError ⟨"Current password is wrong", some 401⟩))
      else
        let user :=
          { user with
            password := req.body.password
            passwordConfirm := req.body.passwordConfirm }
        let user ← save env user true
        createSendToken env user 400

/-! ## Running a handler -/

/-- What one call of a handler leaves behind: how its promise settled (for the
synchronous guard: whether it returned or threw), the request object, the
persisted collection, and the calls it made in order. -/
structure Result where
  settled : Except Thrown Unit
  req : Request
  users : List User
  trace : List Event

/-- An Express handler applied to a request over a persisted collection. -/
abbrev Handler : Type := Request → List User → Result

/-- Call a function `(req, res, next) => ...` with nothing around it. -/
def runHandler (fn : Async Unit) : Handler := fun req users =>
  match fn { req := req, users := users, trace := [] } with
  | (r, s) => { settled := r, req := s.req, users := s.users, trace := s.trace }

/-- Modelled from the spec: the wrapper `catchAsync` of `utils/catchAsync`, which
is not part of this source file.  The spec describes it as the uniform
async-error-catching wrapper that forwards any failure to the centralized error
responder: a rejection of the wrapped function is handed to `next`. -/
def catchAsync (fn : Async Unit) : Handler :=
  runHandler (tryCatch fn (fun err => next (some err)))

/-- `exports.signup`. -/
def signup (env : Env) : Handler := catchAsync (signupAsync env)

/-- `exports.login`. -/
def login (env : Env) : Handler := catchAsync (loginAsync env)

/-- `exports.protect`. -/
def protect (env : Env) : Handler := catchAsync (protectAsync env)

/-- `exports.restrictTo`. -/
def restrictTo (roles : List String) : Handler := runHandler (restrictToGuard roles)

/-- `exports.forgotPassword`. -/
def forgotPassword (env : Env) : Handler := runHandler (forgotPasswordAsync env)

/-- `exports.resetPassword`. -/
def resetPassword (env : Env) : Handler := catchAsync (resetPasswordAsync env)

/-- `exports.updatePassword`. -/
def updatePassword (env : Env) : Handler := catchAsync (updatePasswordAsync env)

/-! ## The words of the specification -/

/-- The header shape of the specification, `Bearer <token>` with a non-empty
token: the seven characters `Bearer ` followed by at least one more. -/
def isBearerForm (h : String) : Bool :=
  "Bearer ".data.isPrefixOf h.data && decide (7 < h.data.length)

/-! ## Concrete collaborators and requests -/

/-- A stored user with the role `user`. -/
def alice : User :=
  { _id := 1
    name := .string "alice"
    email := .string "alice@example.com"
    role := "user"
    password := .string "hash-of-secret"
    passwordConfirm := .undefined
    passwordChangedAt := .undefined
    passwordResetToken := none
    passwordResetExpires := none }

/-- Collaborators that all answer: the token `tok` verifies for user 1, the
password `secret` matches the stored hash, mail is delivered, the database
never fails. -/
def testEnv : Env :=
  { sign := fun id => if id == 1 then "jwt-1" else "jwt-other"
    verify := fun t =>
      if t == "tok" then .ok { id := 1, iat := 100 } else .error (.failure "invalid signature")
    correctPassword := fun candidate stored =>
      .ok (candidate == .string "secret" && stored == .string "hash-of-secret")
    changePasswordAfter := fun _ _ => false
    randomToken := fun _ => "plain"
    sha256hex := fun t => "sha256-" ++ t
    sendEmail := fun _ => .ok ()
    now := 1000
    HTTPS_COOKIE_EXPIRES_IN := 90
    NODE_ENV := "development"
    dbError := fun _ => none
    newUser := fun users f =>
      { _id := users.length + 1, name := f.name, email := f.email, role := "user",
        password := .string "hash", passwordConfirm := .undefined,
        passwordChangedAt := f.passwordChangedAt, passwordResetToken := none,
        passwordResetExpires := none }
    preSave := fun u =>
      match u.passwordConfirm with
      | .undefined => (u.password, .undefined, u.passwordChangedAt)
      | _ => (.string "hash-of-new", .undefined, .number 1000) }

/-- A request with an empty body, no header and no attached user. -/
def emptyRequest : Request :=
  { authorization := none
    body :=
      { name := .undefined, email := .undefined, password := .undefined,
        passwordConfirm := .undefined, passwordChangedAt := .undefined,
        passwordCurrent := .undefined }
    token := ""
    user := none
    protocol := "https"
    host := "funkode.example" }

/-! ## Names for the errors and the calls of the handlers -/

/-- The 401 error of `login`, the same object for an unknown email and for a
wrong password. -/
def loginError : Thrown := .appError ⟨"Incorrect mail or password", some 401⟩

/-- The cookie options `createSendToken` builds. -/
def cookieParamsOf (env : Env) : CookieParams :=
  { expiresIn := env.now + env.HTTPS_COOKIE_EXPIRES_IN * 24 * 60 * 60 * 1000
    httpOnly := true
    secure := if env.NODE_ENV == "production" then some true else none }

/-- The JSON body `createSendToken` writes for `user`. -/
def sendTokenBody (env : Env) (user : User) : ResponseBody :=
  { status := "success"
    token := some (env.sign user._id)
    user := some { user with password := JsValue.undefined }
    message := none }

/-- The calls `createSendToken(user, statusCode, res)` makes. -/
def sendTokenTrace (env : Env) (user : User) (statusCode : Nat) : List Event :=
  [.jwtSign user._id, .cookie "jwt" (env.sign user._id) (cookieParamsOf env),
    .status statusCode, .json (sendTokenBody env user)]

/-- The event signs a token, sets a cookie or writes to the response. -/
def Event.issues : Event → Bool
  | .jwtSign _ => true
  | .cookie _ _ _ => true
  | .status _ => true
  | .json _ => true
  | _ => false

/-- The 401 error of `protect` for a request without a usable token. -/
def notLoggedIn : Thrown :=
  .appError ⟨"You are not logged in! please log in to get access", some 401⟩

/-- Every JSON body in the list of calls either has no user record or is the
body `createSendToken` builds. -/
def JsonSafe (env : Env) (t : List Event) : Prop :=
  ∀ body, Event.json body ∈ t → body.user = none ∨ ∃ u, body = sendTokenBody env u

/-- The computation keeps `JsonSafe`. -/
def Preserves (env : Env) {α : Type} (m : Async α) : Prop :=
  ∀ s, JsonSafe env s.trace → JsonSafe env (m s).2.trace

/-- The document `resetPassword` hands to `save`: new password and confirmation
set, both reset fields cleared. -/
def resetDoc (req : Request) (user : User) : User :=
  { user with
    password := req.body.password
    passwordConfirm := req.body.passwordConfirm
    passwordResetToken := none
    passwordResetExpires := none }

/-- The 400 error of `resetPassword`. -/
def invalidToken : Thrown := .appError ⟨"Token is invalid or has expired", some 400⟩

/-- The collection is well formed: `_id` is a unique key, and a stored
reset-token hash belongs to one user only (each is the hash of a token drawn
at random by `createPasswordResetToken` for that user). -/
def StoreOk (users : List User) : Prop :=
  (users.map User._id).Nodup ∧
    ∀ v ∈ users, ∀ w ∈ users,
      v.passwordResetToken ≠ none → v.passwordResetToken = w.passwordResetToken → v._id = w._id

instance (users : List User) : Decidable (StoreOk users) := by
  unfold StoreOk
  infer_instance

/-! ## Further concrete inputs -/

/-- A second stored user. -/
def bob : User := { alice with _id := 2, name := .string "bob", email := .string "bob@example.com" }

/-- A redemption request for the plaintext token `plain`. -/
def resetRequest : Request :=
  { emptyRequest with
    token := "plain"
    body :=
      { emptyRequest.body with
        password := .string "new-secret", passwordConfirm := .string "new-secret" } }

/-- An authenticated password change whose current password is wrong. -/
def wrongCurrentRequest : Request :=
  { emptyRequest with
    user := some alice
    body :=
      { emptyRequest.body with
        passwordCurrent := .string "not-the-password"
        password := .string "new-secret"
        passwordConfirm := .string "new-secret" } }

/-- The collaborators of `testEnv`, with a mail transport that fails. -/
def mailDownEnv : Env := { testEnv with sendEmail := fun _ => .error (.failure "SMTP down") }

/-- The collaborators of `testEnv`, with a database whose lookups by email fail. -/
def dbDownEnv : Env :=
  { testEnv with
    dbError := fun op =>
      match op with
      | .findOneByEmail _ => some (.failure "connection lost")
      | _ => none }

/-- A request that names the email of `alice`. -/
def aliceEmailRequest : Request :=
  { emptyRequest with body := { emptyRequest.body with email := .string "alice@example.com" } }

/-- The password change `updatePassword` saves for `wrongCurrentRequest`. -/
def aliceChanged : User :=
  { alice with password := .string "new-secret", passwordConfirm := .string "new-secret" }

/-- The document stored after that save. -/
def aliceRehashed : User :=
  { alice with password := .string "hash-of-new", passwordChangedAt := .number 1000 }

/-- `alice` after `createPasswordResetToken` at time 1000. -/
def aliceWithToken : User :=
  { alice with passwordResetToken := some "sha256-plain", passwordResetExpires := some 601000 }

/-- The mail `forgotPassword` sends to `alice`. -/
def aliceMail : EmailOptions :=
  { email := .string "alice@example.com"
    subject := "YOur password reset token (valid for 10 min)"
    message :=
      "Forgot your password? Submit a PATCH request with your new password and passwordConfirm to: https://funkode.example/api/v1/users/resetPassword/plain.\n If you didn'tforgot your password, please ignore this email!" }

/-- A login request with an empty email. -/
def emptyEmailRequest : Request :=
  { emptyRequest with
    body := { emptyRequest.body with email := .string "", password := .string "secret" } }

/-- A login request for `alice` with a wrong password. -/
def wrongLoginRequest : Request :=
  { emptyRequest with
    body :=
      { emptyRequest.body with
        email := .string "alice@example.com", password := .string "guess" } }

/-- A request carrying the header `Bearer tok`. -/
def bearerRequest : Request := { emptyRequest with authorization := some "Bearer tok" }

/-- The collaborators of `testEnv`, for a user who changed the password after
the token was issued. -/
def changedEnv : Env := { testEnv with changePasswordAfter := fun _ _ => true }

/-- `alice` with a pending reset for the plaintext token `plain`. -/
def alicePending : User :=
  { alice with passwordResetToken := some "sha256-plain", passwordResetExpires := some 2000 }

/-! ## Theorems -/

theorem truthy_bool (b : Bool) : (JsValue.bool b).truthy = b := rfl

theorem catchAsync_settled (fn : Async Unit) (req : Request) (users : List User) :
    (catchAsync fn req users).settled = .ok () := by
  unfold catchAsync runHandler tryCatch
  cases h : fn { req := req, users := users, trace := [] } with
  | mk r s =>
    cases r <;> simp [next, emit]

theorem createSendToken_run (env : Env) (user : User) (statusCode : Nat) (s : St) :
    createSendToken env user statusCode s
      = (.ok (), { s with trace := s.trace ++ sendTokenTrace env user statusCode }) := by
  simp [createSendToken, signToken, emit, bind, Async.bind, Async.pure, sendTokenTrace,
    sendTokenBody, cookieParamsOf]

/-- C4: a login request whose email or password is missing or falsy is answered
by `next` with the 400 error and by nothing else: no database lookup, no
token, no cookie, no response body; the collection and the request are
untouched. -/
theorem login_missing_credentials (env : Env) (req : Request) (users : List User)
    (h : req.body.email.truthy = false ∨ req.body.password.truthy = false) :
    (login env req users).trace
        = [.next (some (.appError ⟨"Please provide email and password", some 400⟩))]
      ∧ (∀ e, Event.db (.findOneByEmail e) ∉ (login env req users).trace)
      ∧ (∀ ev ∈ (login env req users).trace, ev.issues = false)
      ∧ (login env req users).settled = .ok ()
      ∧ (login env req users).users = users
      ∧ (login env req users).req = req := by
  rcases h with h | h <;>
    simp [login, catchAsync, runHandler, tryCatch, loginAsync, getReq, next, emit, h,
      bind, Async.bind, Event.issues]

/-- C5: for a login request with both fields present whose lookup resolves, an
unknown email and a wrong password are answered by the same 401 error with no
token signed, no cookie and no response body; with a known email and a
matching password the token is sent with status 200; and the handler signs or
responds exactly when the user exists and the password matches. -/
theorem login_credentials (env : Env) (req : Request) (users : List User)
    (he : req.body.email.truthy = true) (hp : req.body.password.truthy = true)
    (hdb : env.dbError (.findOneByEmail req.body.email) = none) :
    (users.find? (fun u => u.email == req.body.email) = none →
        (login env req users).trace
          = [.db (.findOneByEmail req.body.email), .next (some loginError)])
      ∧ (∀ u, users.find? (fun u => u.email == req.body.email) = some u →
          env.correctPassword req.body.password u.password = .ok false →
          (login env req users).trace
            = [.db (.findOneByEmail req.body.email),
                .correctPassword req.body.password u.password, .next (some loginError)])
      ∧ (∀ u, users.find? (fun u => u.email == req.body.email) = some u →
          env.correctPassword req.body.password u.password = .ok true →
          (login env req users).trace
            = [.db (.findOneByEmail req.body.email),
                .correctPassword req.body.password u.password]
              ++ sendTokenTrace env u 200)
      ∧ ((∃ ev ∈ (login env req users).trace, ev.issues = true) ↔
          ∃ u, users.find? (fun u => u.email == req.body.email) = some u ∧
            env.correctPassword req.body.password u.password = .ok true) := by
  have key : ∀ s : St, s.req = req → s.users = users →
      (tryCatch (loginAsync env) (fun err => next (some err)) s).2.trace
        = s.trace ++
          (match users.find? (fun u => u.email == req.body.email) with
           | none => [.db (.findOneByEmail req.body.email), .next (some loginError)]
           | some u =>
             match env.correctPassword req.body.password u.password with
             | .ok false =>
               [.db (.findOneByEmail req.body.email),
                 .correctPassword req.body.password u.password, .next (some loginError)]
             | .ok true =>
               [.db (.findOneByEmail req.body.email),
                 .correctPassword req.body.password u.password] ++ sendTokenTrace env u 200
             | .error e =>
               [.db (.findOneByEmail req.body.email),
                 .correctPassword req.body.password u.password, .next (some e)]) := by
    intro s hreq husers
    cases hf : users.find? (fun u => u.email == req.body.email) with
    | none =>
      simp [tryCatch, loginAsync, getReq, next, emit, bind, Async.bind, Async.pure, he, hp,
        hdb, hreq, husers, findOneByEmail, dbCall, getUsers, hf, loginError]
    | some u =>
      cases hc : env.correctPassword req.body.password u.password with
      | error e =>
        simp [tryCatch, loginAsync, getReq, next, emit, bind, Async.bind, Async.pure, he, hp,
          hdb, hreq, husers, findOneByEmail, dbCall, getUsers, hf, hc, await, settle,
          Except.map]
      | ok b =>
        cases b <;>
          simp [tryCatch, loginAsync, getReq, next, emit, bind, Async.bind, Async.pure, he,
            hp, hdb, hreq, husers, findOneByEmail, dbCall, getUsers, hf, hc, await, settle,
            Except.map, truthy_bool, loginError, createSendToken_run]
  have htrace := key { req := req, users := users, trace := [] } rfl rfl
  have hrun : (login env req users).trace
      = (tryCatch (loginAsync env) (fun err => next (some err))
          { req := req, users := users, trace := [] }).2.trace := by
    simp [login, catchAsync, runHandler]
  rw [hrun, htrace]
  refine ⟨?_, ?_, ?_, ?_⟩
  · intro hf; simp [hf]
  · intro u hf hc; simp [hf, hc]
  · intro u hf hc; simp [hf, hc]
  · cases hf : users.find? (fun u => u.email == req.body.email) with
    | none => simp [Event.issues, loginError]
    | some u =>
      cases hc : env.correctPassword req.body.password u.password with
      | error e => simp [hc, Event.issues]
      | ok b => cases b <;> simp [hc, Event.issues, loginError, sendTokenTrace]

/-- C2: when the bearer token verifies and its id resolves to a stored user,
`protect` answers by the password-changed check alone: if
`changePasswordAfter(decoded.iat)` is true, `next` gets a 401 error and
`req.user` is not assigned; if it is false, `req.user` becomes the fetched
user and `next` is called with no error. -/
theorem protect_password_changed (env : Env) (req : Request) (users : List User)
    (tok : String) (d : Decoded) (u : User)
    (htok : bearerToken req.authorization = some tok) (hne : tok ≠ "")
    (hver : env.verify tok = .ok d)
    (hdb : env.dbError (.findById d.id) = none)
    (hu : users.find? (fun u => u._id == d.id) = some u) :
    (env.changePasswordAfter u d.iat = true →
        (protect env req users).trace
          = [.jwtVerify tok, .consoleLog, .db (.findById d.id),
              .next (some (.appError
                ⟨"User recenlty changed password! Please log in again.", some 401⟩))]
        ∧ (protect env req users).req = req
        ∧ (protect env req users).settled = .ok ())
      ∧ (env.changePasswordAfter u d.iat = false →
        (protect env req users).trace
          = [.jwtVerify tok, .consoleLog, .db (.findById d.id), .next none]
        ∧ (protect env req users).req = { req with user := some u }
        ∧ (protect env req users).settled = .ok ()) := by
  constructor <;> intro hc <;>
    simp [protect, catchAsync, runHandler, tryCatch, protectAsync, getReq, next, emit, bind,
      Async.bind, Async.pure, htok, hne, hver, hdb, hu, hc, settle, findById, dbCall,
      getUsers, setReqUser]

/-- C6: for an attached user, the guard of `restrictTo(...roles)` hands a 403
error to `next` exactly when the user's role is not among the allowed roles;
otherwise it calls `next` once with no error, writes nothing to the response
and leaves the request and the collection as they were. -/
theorem restrictTo_guard (roles : List String) (req : Request) (users : List User) (u : User)
    (hu : req.user = some u) :
    ((∃ m, Event.next (some (.appError ⟨m, some 403⟩)) ∈ (restrictTo roles req users).trace)
        ↔ u.role ∉ roles)
      ∧ (u.role ∉ roles →
          (restrictTo roles req users).trace
            = [.next (some (.appError ⟨"You have no access to perform this action", some 403⟩))])
      ∧ (u.role ∈ roles →
          (restrictTo roles req users).trace = [.next none]
          ∧ (restrictTo roles req users).req = req
          ∧ (restrictTo roles req users).users = users
          ∧ (restrictTo roles req users).settled = .ok ()) := by
  by_cases hr : u.role ∈ roles <;>
    simp [restrictTo, runHandler, restrictToGuard, getReq, next, emit, bind, Async.bind, hu, hr]

theorem bearerToken_eq_some (authorization : Option String) (t : String) :
    bearerToken authorization = some t ↔
      ∃ h, authorization = some h ∧ startsWith h "Bearer" = true ∧ (split h)[1]? = some t := by
  cases authorization with
  | none => simp [bearerToken]
  | some a =>
    by_cases hs : startsWith a "Bearer" = true
    · have hne : a ≠ "" := by
        rintro rfl
        revert hs
        decide
      simp [bearerToken, hs, hne]
    · simp [bearerToken, hs]

theorem splitOnSpace_no_space (l : List Char) (h : ' ' ∉ l) : splitOnSpace l = [l] := by
  induction l with
  | nil => rfl
  | cons c cs ih =>
    have hc : c ≠ ' ' := fun e => h (by simp [e])
    have hcs : ' ' ∉ cs := fun e => h (by simp [e])
    simp [splitOnSpace, ih hcs, hc]

theorem splitOnSpace_ne_nil (l : List Char) : splitOnSpace l ≠ [] := by
  cases l with
  | nil => simp [splitOnSpace]
  | cons c cs =>
    cases hb : splitOnSpace cs with
    | nil => by_cases hc : c = ' ' <;> simp [splitOnSpace, hb, hc]
    | cons seg rest => by_cases hc : c = ' ' <;> simp [splitOnSpace, hb, hc]

theorem splitOnSpace_append (a b : List Char) (h : ' ' ∉ a) :
    splitOnSpace (a ++ ' ' :: b) = a :: splitOnSpace b := by
  induction a with
  | nil =>
    cases hb : splitOnSpace b with
    | nil => exact absurd hb (splitOnSpace_ne_nil b)
    | cons seg rest => simp [splitOnSpace, hb]
  | cons c cs ih =>
    have hc : c ≠ ' ' := fun e => h (by simp [e])
    have hcs : ' ' ∉ cs := fun e => h (by simp [e])
    simp [splitOnSpace, ih hcs, hc]

theorem protect_without_token (env : Env) (req : Request) (users : List User)
    (h : bearerToken req.authorization = none ∨ bearerToken req.authorization = some "") :
    (protect env req users).trace = [.next (some notLoggedIn)] := by
  rcases h with h | h <;>
    simp [protect, catchAsync, runHandler, tryCatch, protectAsync, getReq, next, emit, bind,
      Async.bind, h, notLoggedIn]

theorem protect_with_token (env : Env) (req : Request) (users : List User) (t : String)
    (h : bearerToken req.authorization = some t) (hne : t ≠ "") :
    (protect env req users).trace.head? = some (.jwtVerify t) := by
  cases hv : env.verify t with
  | error e =>
    simp [protect, catchAsync, runHandler, tryCatch, protectAsync, getReq, next, emit, bind,
      Async.bind, h, hne, hv, settle]
  | ok d =>
    cases hdb : env.dbError (.findById d.id) with
    | some e =>
      simp [protect, catchAsync, runHandler, tryCatch, protectAsync, getReq, next, emit, bind,
        Async.bind, Async.pure, h, hne, hv, settle, findById, dbCall, hdb, throwJs]
    | none =>
      cases hu : users.find? (fun u => u._id == d.id) with
      | none =>
        simp [protect, catchAsync, runHandler, tryCatch, protectAsync, getReq, next, emit,
          bind, Async.bind, Async.pure, h, hne, hv, settle, findById, dbCall, hdb, getUsers,
          hu]
      | some u =>
        cases hc : env.changePasswordAfter u d.iat <;>
          simp [protect, catchAsync, runHandler, tryCatch, protectAsync, getReq, next, emit,
            bind, Async.bind, Async.pure, h, hne, hv, settle, findById, dbCall, hdb,
            getUsers, hu, hc, setReqUser]

theorem split_bearer (t : String) (hsp : ' ' ∉ t.data) :
    startsWith ("Bearer " ++ t) "Bearer" = true ∧ (split ("Bearer " ++ t))[1]? = some t := by
  have hd : ("Bearer " ++ t).data = "Bearer".data ++ ' ' :: t.data := by
    simp [String.data_append]
  constructor
  · simp [startsWith, hd]
  · have hb : ' ' ∉ "Bearer".data := by decide
    have hsplit : splitOnSpace ("Bearer".data ++ ' ' :: t.data) = ["Bearer".data, t.data] := by
      rw [splitOnSpace_append _ _ hb, splitOnSpace_no_space _ hsp]
    unfold split
    rw [hd, hsplit]
    rfl

/-- C3, as the code has it: a token reaches verification exactly when the
`Authorization` header starts with `Bearer` and its second space-separated
segment is non-empty, and that segment is the token verified; every other
request (header absent, other prefix, no or empty second segment) is answered
by the 401 error alone, with no verification and no user lookup; a header
`Bearer <token>` with a non-empty token free of spaces is always admitted. -/
theorem protect_bearer_extraction (env : Env) (req : Request) (users : List User) :
    (∀ h t, req.authorization = some h → startsWith h "Bearer" = true →
        (split h)[1]? = some t → t ≠ "" →
        (protect env req users).trace.head? = some (.jwtVerify t))
      ∧ ((¬ ∃ h t, req.authorization = some h ∧ startsWith h "Bearer" = true ∧
            (split h)[1]? = some t ∧ t ≠ "") →
          (protect env req users).trace = [.next (some notLoggedIn)]
          ∧ (∀ t, Event.jwtVerify t ∉ (protect env req users).trace)
          ∧ (∀ i, Event.db (.findById i) ∉ (protect env req users).trace))
      ∧ (∀ t : String, t ≠ "" → ' ' ∉ t.data → req.authorization = some ("Bearer " ++ t) →
          (protect env req users).trace.head? = some (.jwtVerify t)) := by
  refine ⟨?_, ?_, ?_⟩
  · intro h t ha hs hseg hne
    exact protect_with_token env req users t
      ((bearerToken_eq_some _ _).2 ⟨h, ha, hs, hseg⟩) hne
  · intro hno
    have hb : bearerToken req.authorization = none ∨ bearerToken req.authorization = some "" := by
      cases hbt : bearerToken req.authorization with
      | none => exact Or.inl rfl
      | some t =>
        right
        obtain ⟨h, ha, hs, hseg⟩ := (bearerToken_eq_some _ _).1 hbt
        by_cases ht : t = ""
        · rw [ht]
        · exact absurd ⟨h, t, ha, hs, hseg, ht⟩ hno
    have htr := protect_without_token env req users hb
    rw [htr]
    simp [notLoggedIn]
  · intro t hne hsp ha
    obtain ⟨hs, hseg⟩ := split_bearer t hsp
    exact protect_with_token env req users t
      ((bearerToken_eq_some _ _).2 ⟨_, ha, hs, hseg⟩) hne

/-- C3 as stated fails: the header `Bearerx tok` is not of the form
`Bearer <token>`, yet `protect` takes `tok` from it and verifies it. -/
theorem protect_bearer_form_counterexample :
    ¬ (∀ (env : Env) (req : Request) (users : List User),
        (req.authorization = none ∨
          ∃ h, req.authorization = some h ∧ isBearerForm h = false) →
        (∃ m, Event.next (some (.appError ⟨m, some 401⟩)) ∈ (protect env req users).trace)
          ∧ (∀ t, Event.jwtVerify t ∉ (protect env req users).trace)
          ∧ (∀ i, Event.db (.findById i) ∉ (protect env req users).trace)) := by
  intro h
  have h1 := h testEnv { emptyRequest with authorization := some "Bearerx tok" } [alice]
    (Or.inr ⟨"Bearerx tok", rfl, by decide⟩)
  exact h1.2.1 "tok" (by decide)

theorem preserves_pure (env : Env) {α : Type} (a : α) :
    Preserves env (Pure.pure a : Async α) := fun _ h => h

theorem preserves_apure (env : Env) {α : Type} (a : α) :
    Preserves env (Async.pure a : Async α) := fun _ h => h

theorem preserves_bind (env : Env) {α β : Type} (m : Async α) (f : α → Async β)
    (hm : Preserves env m) (hf : ∀ a, Preserves env (f a)) : Preserves env (m >>= f) := by
  intro s hs
  have h1 := hm s hs
  show JsonSafe env (Async.bind m f s).2.trace
  unfold Async.bind
  cases hms : m s with
  | mk r s1 =>
    rw [hms] at h1
    cases r with
    | ok a => exact hf a s1 h1
    | error e => exact h1

theorem preserves_tryCatch (env : Env) {α : Type} (m : Async α) (f : Thrown → Async α)
    (hm : Preserves env m) (hf : ∀ e, Preserves env (f e)) : Preserves env (tryCatch m f) := by
  intro s hs
  have h1 := hm s hs
  unfold tryCatch
  cases hms : m s with
  | mk r s1 =>
    rw [hms] at h1
    cases r with
    | ok a => exact h1
    | error e => exact hf e s1 h1

theorem preserves_emit (env : Env) (ev : Event)
    (h : ∀ body, ev = .json body → body.user = none ∨ ∃ u, body = sendTokenBody env u) :
    Preserves env (emit ev) := by
  intro s hs body hb
  simp only [emit, List.mem_append, List.mem_singleton] at hb
  rcases hb with hb | hb
  · exact hs body hb
  · exact h body hb.symm

theorem preserves_next (env : Env) (err : Option Thrown) : Preserves env (next err) :=
  preserves_emit env _ (fun _ h => by cases h)

theorem preserves_getReq (env : Env) : Preserves env getReq := fun _ h => h

theorem preserves_getUsers (env : Env) : Preserves env getUsers := fun _ h => h

theorem preserves_setUsers (env : Env) (us : List User) : Preserves env (setUsers us) :=
  fun _ h => h

theorem preserves_setReqUser (env : Env) (u : User) : Preserves env (setReqUser u) :=
  fun _ h => h

theorem preserves_settle (env : Env) {α : Type} (r : Except Thrown α) :
    Preserves env (settle r) := fun _ h => h

theorem preserves_throwJs (env : Env) {α : Type} (e : Thrown) :
    Preserves env (throwJs e : Async α) := fun _ h => h

theorem preserves_await (env : Env) (a : Awaitable) : Preserves env (await a) := by
  cases a with
  | value v => exact preserves_apure env v
  | promise r => exact preserves_settle env r

theorem preserves_dbCall (env : Env) (op : DbOp) : Preserves env (dbCall env op) := by
  unfold dbCall
  apply preserves_bind
  · exact preserves_emit env _ (fun _ h => by cases h)
  · intro _
    split
    · exact preserves_throwJs env _
    · exact preserves_apure env _

theorem preserves_findOneByEmail (env : Env) (e : JsValue) :
    Preserves env (findOneByEmail env e) := by
  unfold findOneByEmail
  exact preserves_bind env _ _ (preserves_dbCall env _) (fun _ =>
    preserves_bind env _ _ (preserves_getUsers env) (fun _ => preserves_apure env _))

theorem preserves_findById (env : Env) (i : Nat) : Preserves env (findById env i) := by
  unfold findById
  exact preserves_bind env _ _ (preserves_dbCall env _) (fun _ =>
    preserves_bind env _ _ (preserves_getUsers env) (fun _ => preserves_apure env _))

theorem preserves_findOneByResetToken (env : Env) (h : String) (t : Nat) :
    Preserves env (findOneByResetToken env h t) := by
  unfold findOneByResetToken
  exact preserves_bind env _ _ (preserves_dbCall env _) (fun _ =>
    preserves_bind env _ _ (preserves_getUsers env) (fun _ => preserves_apure env _))

theorem preserves_save (env : Env) (u : User) (v : Bool) : Preserves env (save env u v) := by
  unfold save
  exact preserves_bind env _ _ (preserves_dbCall env _) (fun _ =>
    preserves_bind env _ _ (preserves_getUsers env) (fun _ =>
      preserves_bind env _ _ (preserves_setUsers env _) (fun _ => preserves_apure env _)))

theorem preserves_create (env : Env) (f : SignupFields) : Preserves env (create env f) := by
  unfold create
  exact preserves_bind env _ _ (preserves_dbCall env _) (fun _ =>
    preserves_bind env _ _ (preserves_getUsers env) (fun _ =>
      preserves_bind env _ _ (preserves_setUsers env _) (fun _ => preserves_apure env _)))

theorem preserves_createSendToken (env : Env) (u : User) (c : Nat) :
    Preserves env (createSendToken env u c) := by
  intro s hs body hb
  rw [createSendToken_run] at hb
  simp only [sendTokenTrace, List.mem_append, List.mem_cons, List.mem_singleton,
    List.mem_nil_iff, or_false] at hb
  rcases hb with hb | hb | hb | hb | hb
  · exact hs body hb
  · cases hb
  · cases hb
  · cases hb
  · right
    exact ⟨u, by injection hb⟩

theorem preserves_loginAsync (env : Env) : Preserves env (loginAsync env) := by
  unfold loginAsync
  apply preserves_bind _ _ _ (preserves_getReq env)
  intro req
  dsimp only
  split
  · exact preserves_next env _
  · apply preserves_bind _ _ _ (preserves_findOneByEmail env _)
    intro user
    split
    · exact preserves_next env _
    · apply preserves_bind _ _ _ (preserves_emit env _ (fun _ h => by cases h))
      intro _
      apply preserves_bind _ _ _ (preserves_await env _)
      intro ok
      split
      · exact preserves_next env _
      · exact preserves_createSendToken env _ _

theorem preserves_signupAsync (env : Env) : Preserves env (signupAsync env) := by
  unfold signupAsync
  apply preserves_bind _ _ _ (preserves_getReq env)
  intro req
  apply preserves_bind _ _ _ (preserves_create env _)
  intro u
  exact preserves_createSendToken env _ _

theorem preserves_protectAsync (env : Env) : Preserves env (protectAsync env) := by
  unfold protectAsync
  apply preserves_bind _ _ _ (preserves_getReq env)
  intro req
  dsimp only
  split
  · exact preserves_next env _
  · split
    · exact preserves_next env _
    · apply preserves_bind _ _ _ (preserves_emit env _ (fun _ h => by cases h))
      intro _
      apply preserves_bind _ _ _ (preserves_settle env _)
      intro d
      apply preserves_bind _ _ _ (preserves_emit env _ (fun _ h => by cases h))
      intro _
      apply preserves_bind _ _ _ (preserves_findById env _)
      intro fu
      split
      · exact preserves_next env _
      · split
        · exact preserves_next env _
        · exact preserves_bind _ _ _ (preserves_setReqUser env _) (fun _ => preserves_next env _)

theorem preserves_restrictToGuard (env : Env) (roles : List String) :
    Preserves env (restrictToGuard roles) := by
  unfold restrictToGuard
  apply preserves_bind _ _ _ (preserves_getReq env)
  intro req
  split
  · exact preserves_throwJs env _
  · split
    · exact preserves_next env _
    · exact preserves_next env _

theorem preserves_resetPasswordAsync (env : Env) : Preserves env (resetPasswordAsync env) := by
  unfold resetPasswordAsync
  apply preserves_bind _ _ _ (preserves_getReq env)
  intro req
  dsimp only
  apply preserves_bind _ _ _ (preserves_findOneByResetToken env _ _)
  intro user
  split
  · exact preserves_next env _
  · apply preserves_bind _ _ _ (preserves_save env _ _)
    intro u
    exact preserves_createSendToken env _ _

theorem preserves_updatePasswordAsync (env : Env) : Preserves env (updatePasswordAsync env) := by
  unfold updatePasswordAsync
  apply preserves_bind _ _ _ (preserves_getReq env)
  intro req
  split
  · exact preserves_throwJs env _
  · apply preserves_bind _ _ _ (preserves_findById env _)
    intro user
    split
    · exact preserves_throwJs env _
    · apply preserves_bind _ _ _ (preserves_emit env _ (fun _ h => by cases h))
      intro _
      apply preserves_bind _ _ _ (preserves_await env _)
      intro wrong
      split
      · exact preserves_next env _
      · dsimp only
        apply preserves_bind _ _ _ (preserves_save env _ _)
        intro u
        exact preserves_createSendToken env _ _

theorem preserves_forgotPasswordAsync (env : Env) : Preserves env (forgotPasswordAsync env) := by
  unfold forgotPasswordAsync
  apply preserves_bind _ _ _ (preserves_getReq env)
  intro req
  apply preserves_bind _ _ _ (preserves_findOneByEmail env _)
  intro user
  split
  · exact preserves_next env _
  · dsimp only
    apply preserves_bind _ _ _ (preserves_save env _ _)
    intro u
    apply preserves_bind _ _ _ (preserves_emit env _ (fun _ h => by cases h))
    intro _
    apply preserves_bind
    · apply preserves_tryCatch
      · apply preserves_bind _ _ _ (preserves_emit env _ (fun _ h => by cases h))
        intro _
        apply preserves_bind _ _ _ (preserves_settle env _)
        intro _
        apply preserves_bind _ _ _ (preserves_emit env _ (fun _ h => by cases h))
        intro _
        apply preserves_bind
        · apply preserves_emit
          intro body hb
          left
          injection hb with hb
          rw [← hb]
        · intro _
          exact preserves_apure env _
      · intro e
        apply preserves_bind _ _ _ (preserves_save env _ _)
        intro _
        apply preserves_bind _ _ _ (preserves_next env _)
        intro _
        exact preserves_apure env _
    · intro sent
      split
      · exact preserves_next env _
      · exact preserves_apure env _

theorem jsonSafe_runHandler (env : Env) (fn : Async Unit) (h : Preserves env fn)
    (req : Request) (users : List User) : JsonSafe env (runHandler fn req users).trace := by
  have := h { req := req, users := users, trace := [] } (fun _ hb => by cases hb)
  simpa [runHandler] using this

theorem jsonSafe_catchAsync (env : Env) (fn : Async Unit) (h : Preserves env fn)
    (req : Request) (users : List User) : JsonSafe env (catchAsync fn req users).trace :=
  jsonSafe_runHandler env _ (preserves_tryCatch env _ _ h (fun _ => preserves_next env _)) req users

/-- C9: the JSON body written by `createSendToken` is
`{status: 'success', token, data: {user}}` with the token signed for the
user's `_id` and the user's password field set to `undefined`; and every JSON
body written by a handler of the module either holds no user record or is such
a body, so that no body carries a password. -/
theorem password_never_returned (env : Env) (roles : List String) (req : Request)
    (users : List User) :
    (∀ (user : User) (statusCode : Nat) (s : St),
        createSendToken env user statusCode s
          = (.ok (),
              { s with
                trace := s.trace ++
                  [.jwtSign user._id,
                    .cookie "jwt" (env.sign user._id) (cookieParamsOf env),
                    .status statusCode,
                    .json
                      { status := "success"
                        token := some (env.sign user._id)
                        user := some { user with password := JsValue.undefined }
                        message := none }] }))
      ∧ (∀ h ∈ [signup env, login env, protect env, restrictTo roles, forgotPassword env,
              resetPassword env, updatePassword env],
          ∀ body, Event.json body ∈ (h req users).trace →
            (body.user = none ∨
              ∃ u : User, body =
                { status := "success"
                  token := some (env.sign u._id)
                  user := some { u with password := JsValue.undefined }
                  message := none })
            ∧ (∀ u, body.user = some u → u.password = JsValue.undefined)) := by
  constructor
  · intro user statusCode s
    exact createSendToken_run env user statusCode s
  · intro h hh body hb
    have hsafe : JsonSafe env (h req users).trace := by
      simp only [List.mem_cons, List.mem_singleton, List.mem_nil_iff, or_false] at hh
      rcases hh with rfl | rfl | rfl | rfl | rfl | rfl | rfl
      · exact jsonSafe_catchAsync env _ (preserves_signupAsync env) req users
      · exact jsonSafe_catchAsync env _ (preserves_loginAsync env) req users
      · exact jsonSafe_catchAsync env _ (preserves_protectAsync env) req users
      · exact jsonSafe_runHandler env _ (preserves_restrictToGuard env roles) req users
      · exact jsonSafe_runHandler env _ (preserves_forgotPasswordAsync env) req users
      · exact jsonSafe_catchAsync env _ (preserves_resetPasswordAsync env) req users
      · exact jsonSafe_catchAsync env _ (preserves_updatePasswordAsync env) req users
    rcases hsafe body hb with hnone | ⟨u, hu⟩
    · exact ⟨Or.inl hnone, fun u h => by rw [hnone] at h; cases h⟩
    · refine ⟨Or.inr ⟨u, hu⟩, ?_⟩
      intro v hv
      rw [hu] at hv
      simp only [sendTokenBody, Option.some.injEq] at hv
      rw [← hv]

theorem resetPassword_db_error (env : Env) (req : Request) (users : List User) (e : Thrown)
    (hdb : env.dbError (.findOneByResetToken (env.sha256hex req.token) env.now) = some e) :
    (resetPassword env req users).trace
        = [.db (.findOneByResetToken (env.sha256hex req.token) env.now), .next (some e)]
      ∧ (resetPassword env req users).users = users := by
  simp [resetPassword, catchAsync, runHandler, tryCatch, resetPasswordAsync, getReq, next,
    emit, bind, Async.bind, Async.pure, findOneByResetToken, dbCall, hdb, throwJs]

theorem resetPassword_no_match (env : Env) (req : Request) (users : List User)
    (hdb : env.dbError (.findOneByResetToken (env.sha256hex req.token) env.now) = none)
    (hf : users.find? (resetTokenFilter (env.sha256hex req.token) env.now) = none) :
    (resetPassword env req users).trace
        = [.db (.findOneByResetToken (env.sha256hex req.token) env.now),
            .next (some invalidToken)]
      ∧ (resetPassword env req users).users = users
      ∧ (resetPassword env req users).req = req
      ∧ (resetPassword env req users).settled = .ok () := by
  simp [resetPassword, catchAsync, runHandler, tryCatch, resetPasswordAsync, getReq, next,
    emit, bind, Async.bind, Async.pure, findOneByResetToken, dbCall, hdb, getUsers, hf,
    invalidToken]

theorem resetPassword_save_error (env : Env) (req : Request) (users : List User) (u : User)
    (e : Thrown)
    (hdb : env.dbError (.findOneByResetToken (env.sha256hex req.token) env.now) = none)
    (hf : users.find? (resetTokenFilter (env.sha256hex req.token) env.now) = some u)
    (hs : env.dbError (.save (resetDoc req u) true) = some e) :
    (resetPassword env req users).trace
        = [.db (.findOneByResetToken (env.sha256hex req.token) env.now),
            .db (.save (resetDoc req u) true), .next (some e)]
      ∧ (resetPassword env req users).users = users := by
  simp [resetDoc] at hs
  simp [resetPassword, catchAsync, runHandler, tryCatch, resetPasswordAsync, getReq, next,
    emit, bind, Async.bind, Async.pure, findOneByResetToken, dbCall, hdb, getUsers, hf,
    save, hs, throwJs, resetDoc]

theorem resetPassword_redeem (env : Env) (req : Request) (users : List User) (u : User)
    (hdb : env.dbError (.findOneByResetToken (env.sha256hex req.token) env.now) = none)
    (hf : users.find? (resetTokenFilter (env.sha256hex req.token) env.now) = some u)
    (hs : env.dbError (.save (resetDoc req u) true) = none) :
    (resetPassword env req users).trace
        = [.db (.findOneByResetToken (env.sha256hex req.token) env.now),
            .db (.save (resetDoc req u) true)]
          ++ sendTokenTrace env (savedDoc env (resetDoc req u)) 400
      ∧ (resetPassword env req users).users = replaceDoc (savedDoc env (resetDoc req u)) users := by
  simp [resetDoc] at hs
  simp [resetPassword, catchAsync, runHandler, tryCatch, resetPasswordAsync, getReq, next,
    emit, bind, Async.bind, Async.pure, findOneByResetToken, dbCall, hdb, getUsers, hf,
    save, hs, setUsers, createSendToken_run, resetDoc]

theorem mem_replaceDoc (d : User) (us : List User) (hnd : (us.map User._id).Nodup) (v : User)
    (hv : v ∈ replaceDoc d us) : v = d ∨ (v ∈ us ∧ v._id ≠ d._id) := by
  induction us with
  | nil => simp [replaceDoc] at hv
  | cons u us ih =>
    simp only [List.map_cons, List.nodup_cons, List.mem_map, not_exists, not_and] at hnd
    by_cases hid : u._id = d._id
    · have hrep : replaceDoc d (u :: us) = d :: us := by
        simp [replaceDoc, hid]
      rw [hrep] at hv
      rcases List.mem_cons.1 hv with hv | hv
      · exact Or.inl hv
      · right
        refine ⟨List.mem_cons_of_mem _ hv, ?_⟩
        intro h
        exact hnd.1 v hv (by rw [h, hid])
    · have hrep : replaceDoc d (u :: us) = u :: replaceDoc d us := by
        simp [replaceDoc, hid]
      rw [hrep] at hv
      rcases List.mem_cons.1 hv with hv | hv
      · right
        rw [hv]
        exact ⟨List.mem_cons_self _ _, hid⟩
      · rcases ih hnd.2 hv with h | ⟨h1, h2⟩
        · exact Or.inl h
        · exact Or.inr ⟨List.mem_cons_of_mem _ h1, h2⟩

theorem replaceDoc_mem (d : User) (us : List User) (u : User) (hu : u ∈ us)
    (hid : u._id = d._id) : d ∈ replaceDoc d us := by
  induction us with
  | nil => cases hu
  | cons w us ih =>
    by_cases hw : w._id = d._id
    · simp [replaceDoc, hw]
    · have hrep : replaceDoc d (w :: us) = w :: replaceDoc d us := by
        simp [replaceDoc, hw]
      rw [hrep]
      apply List.mem_cons_of_mem
      rcases List.mem_cons.1 hu with h | h
      · exact absurd (h ▸ hid) hw
      · exact ih h

theorem resetTokenFilter_iff (h : String) (t : Nat) (u : User) :
    resetTokenFilter h t u = true ↔
      u.passwordResetToken = some h ∧ ∃ e, u.passwordResetExpires = some e ∧ t < e := by
  unfold resetTokenFilter
  cases hx : u.passwordResetExpires <;> simp

theorem map_id_replaceDoc (d : User) (us : List User) :
    (replaceDoc d us).map User._id = us.map User._id := by
  induction us with
  | nil => rfl
  | cons u us ih =>
    by_cases hid : u._id = d._id
    · simp [replaceDoc, hid]
    · simp [replaceDoc, hid, ih]

theorem storeOk_nil : StoreOk [] := by
  simp [StoreOk]

theorem storeOk_replaceDoc (d : User) (us : List User) (hwf : StoreOk us)
    (hfresh : d.passwordResetToken ≠ none →
      ∀ v ∈ us, v._id ≠ d._id → v.passwordResetToken ≠ d.passwordResetToken) :
    StoreOk (replaceDoc d us) := by
  refine ⟨by rw [map_id_replaceDoc]; exact hwf.1, ?_⟩
  intro v hv w hw hne heq
  rcases mem_replaceDoc d us hwf.1 v hv with rfl | ⟨hv1, hv2⟩
  · rcases mem_replaceDoc v us hwf.1 w hw with rfl | ⟨hw1, hw2⟩
    · rfl
    · exact absurd heq.symm (hfresh hne w hw1 hw2)
  · rcases mem_replaceDoc d us hwf.1 w hw with rfl | ⟨hw1, _⟩
    · exact absurd heq (hfresh (heq ▸ hne) v hv1 hv2)
    · exact hwf.2 v hv1 w hw1 hne heq

/-- Redeeming a token keeps the collection well formed. -/
theorem resetPassword_storeOk (env : Env) (req : Request) (users : List User)
    (hwf : StoreOk users) : StoreOk (resetPassword env req users).users := by
  cases hdb : env.dbError (.findOneByResetToken (env.sha256hex req.token) env.now) with
  | some e => rw [(resetPassword_db_error env req users e hdb).2]; exact hwf
  | none =>
    cases hf : users.find? (resetTokenFilter (env.sha256hex req.token) env.now) with
    | none => rw [(resetPassword_no_match env req users hdb hf).2.1]; exact hwf
    | some u =>
      cases hs : env.dbError (.save (resetDoc req u) true) with
      | some e => rw [(resetPassword_save_error env req users u e hdb hf hs).2]; exact hwf
      | none =>
        rw [(resetPassword_redeem env req users u hdb hf hs).2]
        exact storeOk_replaceDoc _ _ hwf (fun h => absurd rfl h)

/-- Starting a reset keeps the collection well formed, as long as the hash of
the token drawn for the user is not already stored for another user. -/
theorem forgotPassword_storeOk (env : Env) (req : Request) (users : List User)
    (hwf : StoreOk users)
    (hfresh : ∀ u ∈ users, ∀ v ∈ users, v._id ≠ u._id →
      v.passwordResetToken ≠ some (env.sha256hex (env.randomToken u))) :
    StoreOk (forgotPassword env req users).users := by
  cases hdb : env.dbError (.findOneByEmail req.body.email) with
  | some e =>
    have : (forgotPassword env req users).users = users := by
      simp [forgotPassword, runHandler, forgotPasswordAsync, getReq, bind, Async.bind,
        findOneByEmail, dbCall, emit, hdb, throwJs]
    rw [this]; exact hwf
  | none =>
    cases hf : users.find? (fun u => u.email == req.body.email) with
    | none =>
      have : (forgotPassword env req users).users = users := by
        simp [forgotPassword, runHandler, forgotPasswordAsync, getReq, bind, Async.bind,
          Async.pure, findOneByEmail, dbCall, emit, hdb, getUsers, hf, next]
      rw [this]; exact hwf
    | some u =>
      have hu : u ∈ users := List.mem_of_find?_eq_some hf
      have hwf1 : StoreOk (replaceDoc (savedDoc env (createPasswordResetToken env u).2) users) := by
        apply storeOk_replaceDoc _ _ hwf
        intro _ v hv hid
        exact hfresh u hu v hv hid
      have hwf2 : StoreOk (replaceDoc
          (savedDoc env
            { savedDoc env (createPasswordResetToken env u).2 with
              passwordResetToken := none, passwordResetExpires := none })
          (replaceDoc (savedDoc env (createPasswordResetToken env u).2) users)) :=
        storeOk_replaceDoc _ _ hwf1 (fun h => absurd rfl h)
      cases hs1 : env.dbError (.save (createPasswordResetToken env u).2 false) with
      | some e =>
        have : (forgotPassword env req users).users = users := by
          simp [forgotPassword, runHandler, forgotPasswordAsync, getReq, bind, Async.bind,
            Async.pure, findOneByEmail, dbCall, emit, hdb, getUsers, hf, save, hs1, throwJs]
        rw [this]; exact hwf
      | none =>
        cases hm : env.sendEmail
            { email := (savedDoc env (createPasswordResetToken env u).2).email
              subject := "YOur password reset token (valid for 10 min)"
              message :=
                "Forgot your password? Submit a PATCH request with your new password and passwordConfirm to: "
                  ++ (req.protocol ++ "://" ++ req.host ++ "/api/v1/users/resetPassword/"
                    ++ (createPasswordResetToken env u).1)
                  ++ ".\n If you didn'tforgot your password, please ignore this email!" } with
        | ok _ =>
          have : (forgotPassword env req users).users
              = replaceDoc (savedDoc env (createPasswordResetToken env u).2) users := by
            simp [forgotPassword, runHandler, forgotPasswordAsync, getReq, bind, Async.bind,
              Async.pure, findOneByEmail, dbCall, emit, hdb, getUsers, hf, save, hs1, setUsers,
              tryCatch, settle, hm, next]
          rw [this]; exact hwf1
        | error e =>
          cases hs2 : env.dbError (.save
              { savedDoc env (createPasswordResetToken env u).2 with
                passwordResetToken := none, passwordResetExpires := none } false) with
          | some e2 =>
            have : (forgotPassword env req users).users
                = replaceDoc (savedDoc env (createPasswordResetToken env u).2) users := by
              simp [forgotPassword, runHandler, forgotPasswordAsync, getReq, bind, Async.bind,
                Async.pure, findOneByEmail, dbCall, emit, hdb, getUsers, hf, save, hs1,
                setUsers, tryCatch, settle, hm, next, hs2, throwJs]
            rw [this]; exact hwf1
          | none =>
            have : (forgotPassword env req users).users
                = replaceDoc
                    (savedDoc env
                      { savedDoc env (createPasswordResetToken env u).2 with
                        passwordResetToken := none, passwordResetExpires := none })
                    (replaceDoc (savedDoc env (createPasswordResetToken env u).2) users) := by
              simp [forgotPassword, runHandler, forgotPasswordAsync, getReq, bind, Async.bind,
                Async.pure, findOneByEmail, dbCall, emit, hdb, getUsers, hf, save, hs1,
                setUsers, tryCatch, settle, hm, next, hs2]
            rw [this]; exact hwf2

/-- C8: over a well-formed collection (unique `_id`s, each stored reset-token
hash held by one user) and with the lookups resolving, `resetPassword` saves or
issues a token only when some user's stored hash equals the SHA-256 hex digest
of the path token with an expiry strictly later than the current time, and it
does issue one whenever such a user is found and the save resolves; when no
user matches it answers with the 400 error alone and changes nothing; after a
redemption that issued a token, the redeemed user's document is stored with
both reset fields cleared, and a second call with the same plaintext token,
at any later time, answers with the 400 error alone and changes nothing. -/
theorem resetPassword_single_use (env : Env) (req req2 : Request) (users : List User)
    (now2 : Nat)
    (hwf : StoreOk users)
    (hdb : env.dbError (.findOneByResetToken (env.sha256hex req.token) env.now) = none)
    (hdb2 : env.dbError (.findOneByResetToken (env.sha256hex req.token) now2) = none)
    (htok : req2.token = req.token) :
    (((∃ ev ∈ (resetPassword env req users).trace, ev.issues = true)
          ∨ (resetPassword env req users).users ≠ users) →
        ∃ u ∈ users, u.passwordResetToken = some (env.sha256hex req.token) ∧
          ∃ e, u.passwordResetExpires = some e ∧ env.now < e)
      ∧ (∀ u, users.find? (resetTokenFilter (env.sha256hex req.token) env.now) = some u →
          env.dbError (.save (resetDoc req u) true) = none →
          (resetPassword env req users).trace
            = [.db (.findOneByResetToken (env.sha256hex req.token) env.now),
                .db (.save (resetDoc req u) true)]
              ++ sendTokenTrace env (savedDoc env (resetDoc req u)) 400)
      ∧ ((¬ ∃ u ∈ users, u.passwordResetToken = some (env.sha256hex req.token) ∧
            ∃ e, u.passwordResetExpires = some e ∧ env.now < e) →
          (resetPassword env req users).trace
              = [.db (.findOneByResetToken (env.sha256hex req.token) env.now),
                  .next (some (.appError ⟨"Token is invalid or has expired", some 400⟩))]
            ∧ (resetPassword env req users).users = users
            ∧ (resetPassword env req users).req = req)
      ∧ ((∃ ev ∈ (resetPassword env req users).trace, ev.issues = true) →
          (∃ u ∈ users,
              (u.passwordResetToken = some (env.sha256hex req.token) ∧
                ∃ e, u.passwordResetExpires = some e ∧ env.now < e)
              ∧ (∃ v ∈ (resetPassword env req users).users, v._id = u._id)
              ∧ (∀ v ∈ (resetPassword env req users).users, v._id = u._id →
                  v.passwordResetToken = none ∧ v.passwordResetExpires = none))
            ∧ (resetPassword { env with now := now2 } req2
                  (resetPassword env req users).users).trace
                = [.db (.findOneByResetToken (env.sha256hex req.token) now2),
                    .next (some (.appError ⟨"Token is invalid or has expired", some 400⟩))]
            ∧ (resetPassword { env with now := now2 } req2
                  (resetPassword env req users).users).users
                = (resetPassword env req users).users) := by
  refine ⟨?_, ?_, ?_, ?_⟩
  · intro hsucc
    cases hf : users.find? (resetTokenFilter (env.sha256hex req.token) env.now) with
    | none =>
      obtain ⟨ht, hu, _, _⟩ := resetPassword_no_match env req users hdb hf
      rw [ht, hu] at hsucc
      simp [Event.issues] at hsucc
    | some u =>
      exact ⟨u, List.mem_of_find?_eq_some hf, (resetTokenFilter_iff _ _ _).1 (List.find?_some hf)⟩
  · intro u hf hs
    exact (resetPassword_redeem env req users u hdb hf hs).1
  · intro hno
    have hf : users.find? (resetTokenFilter (env.sha256hex req.token) env.now) = none := by
      rw [List.find?_eq_none]
      intro u hu hp
      exact hno ⟨u, hu, (resetTokenFilter_iff _ _ _).1 hp⟩
    obtain ⟨ht, hu, hr, _⟩ := resetPassword_no_match env req users hdb hf
    exact ⟨ht, hu, hr⟩
  · intro hsucc
    cases hf : users.find? (resetTokenFilter (env.sha256hex req.token) env.now) with
    | none =>
      obtain ⟨ht, _, _, _⟩ := resetPassword_no_match env req users hdb hf
      rw [ht] at hsucc
      simp [Event.issues] at hsucc
    | some u =>
      cases hs : env.dbError (.save (resetDoc req u) true) with
      | some e =>
        obtain ⟨ht, _⟩ := resetPassword_save_error env req users u e hdb hf hs
        rw [ht] at hsucc
        simp [Event.issues] at hsucc
      | none =>
        obtain ⟨_, hu⟩ := resetPassword_redeem env req users u hdb hf hs
        have hmem : u ∈ users := List.mem_of_find?_eq_some hf
        have hmatch := (resetTokenFilter_iff _ _ _).1 (List.find?_some hf)
        have hidsaved : (savedDoc env (resetDoc req u))._id = u._id := rfl
        have hf2 : (replaceDoc (savedDoc env (resetDoc req u)) users).find?
            (resetTokenFilter (env.sha256hex req.token) now2) = none := by
          rw [List.find?_eq_none]
          intro v hv hp
          have hp2 := (resetTokenFilter_iff _ _ _).1 hp
          rcases mem_replaceDoc _ _ hwf.1 v hv with h | ⟨h1, h2⟩
          · rw [h] at hp2
            exact absurd hp2.1 (by simp [savedDoc, resetDoc])
          · apply h2
            rw [hidsaved]
            exact hwf.2 v h1 u hmem (by rw [hp2.1]; simp) (by rw [hp2.1, hmatch.1])
        rw [hu]
        refine ⟨⟨u, hmem, hmatch, ?_, ?_⟩, ?_⟩
        · exact ⟨_, replaceDoc_mem _ users u hmem hidsaved.symm, hidsaved⟩
        · intro v hv hid
          rcases mem_replaceDoc _ _ hwf.1 v hv with h | ⟨_, h2⟩
          · rw [h]
            exact ⟨rfl, rfl⟩
          · exact absurd (hid.trans hidsaved.symm) h2
        · have h2 := resetPassword_no_match { env with now := now2 } req2
            (replaceDoc (savedDoc env (resetDoc req u)) users)
            (by simpa [htok] using hdb2) (by simpa [htok] using hf2)
          simp only [htok] at h2
          exact ⟨h2.1, h2.2.1⟩


set_option maxRecDepth 100000 in
/-- C1 fails on the code: the password comparison resolves to false for the
submitted current password, yet `updatePassword` tests `await !promise`, which
is always false; it never calls `next`, saves the new password and sends a
token. -/
theorem updatePassword_wrong_current_password :
    testEnv.correctPassword wrongCurrentRequest.body.passwordCurrent alice.password = .ok false
      ∧ (updatePassword testEnv wrongCurrentRequest [alice]).trace
          = [.db (.findById 1),
              .correctPassword (.string "not-the-password") (.string "hash-of-secret"),
              .db (.save aliceChanged true),
              .jwtSign 1,
              .cookie "jwt" "jwt-1" { expiresIn := 7776001000, httpOnly := true, secure := none },
              .status 400,
              .json
                { status := "success", token := some "jwt-1",
                  user := some { aliceRehashed with password := .undefined },
                  message := none }]
      ∧ (∀ err, Event.next err ∉ (updatePassword testEnv wrongCurrentRequest [alice]).trace)
      ∧ (updatePassword testEnv wrongCurrentRequest [alice]).users = [aliceRehashed] := by
  have ht : (updatePassword testEnv wrongCurrentRequest [alice]).trace
      = [.db (.findById 1),
          .correctPassword (.string "not-the-password") (.string "hash-of-secret"),
          .db (.save aliceChanged true),
          .jwtSign 1,
          .cookie "jwt" "jwt-1" { expiresIn := 7776001000, httpOnly := true, secure := none },
          .status 400,
          .json
            { status := "success", token := some "jwt-1",
              user := some { aliceRehashed with password := .undefined },
              message := none }] := by decide
  refine ⟨rfl, ht, ?_, by decide⟩
  intro err h
  rw [ht] at h
  simp at h

set_option maxRecDepth 100000 in
/-- C7 fails on the code in its last part: when the mail transport fails,
`forgotPassword` clears both reset fields, saves that with validation bypassed
and writes no response, but the error it hands to `next` is built from the
message alone and carries no status code. -/
theorem forgotPassword_mail_failure :
    (forgotPassword mailDownEnv aliceEmailRequest [alice]).trace
        = [.db (.findOneByEmail (.string "alice@example.com")),
            .db (.save aliceWithToken false),
            .consoleLog,
            .sendEmail aliceMail,
            .db (.save alice false),
            .next (some (.appError
              ⟨"There was an error sending the email. Try again later!", none⟩))]
      ∧ (forgotPassword mailDownEnv aliceEmailRequest [alice]).users = [alice]
      ∧ (∀ m c, Event.next (some (.appError ⟨m, some c⟩))
          ∉ (forgotPassword mailDownEnv aliceEmailRequest [alice]).trace) := by
  have ht : (forgotPassword mailDownEnv aliceEmailRequest [alice]).trace
      = [.db (.findOneByEmail (.string "alice@example.com")),
          .db (.save aliceWithToken false),
          .consoleLog,
          .sendEmail aliceMail,
          .db (.save alice false),
          .next (some (.appError
            ⟨"There was an error sending the email. Try again later!", none⟩))] := by decide
  refine ⟨ht, by decide, ?_⟩
  intro m c h
  rw [ht] at h
  simp at h

set_option maxRecDepth 100000 in
/-- C10 fails on the code: `forgotPassword` is exported without the wrapper, so
when its database lookup rejects, its promise rejects and `next` is never
called; `login`, which is wrapped, hands the same failure to `next`. -/
theorem forgotPassword_uncaught_rejection :
    (forgotPassword dbDownEnv aliceEmailRequest [alice]).settled
        = .error (.failure "connection lost")
      ∧ (forgotPassword dbDownEnv aliceEmailRequest [alice]).trace
        = [.db (.findOneByEmail (.string "alice@example.com"))]
      ∧ (login dbDownEnv
            { aliceEmailRequest with
              body := { aliceEmailRequest.body with password := .string "secret" } }
            [alice]).trace
        = [.db (.findOneByEmail (.string "alice@example.com")),
            .next (some (.failure "connection lost"))] := by
  refine ⟨rfl, by decide, by decide⟩

set_option maxRecDepth 100000 in
/-- Witness for C4: a login with the empty string as email. -/
theorem login_missing_credentials_witness :
    (emptyEmailRequest.body.email.truthy = false
        ∨ emptyEmailRequest.body.password.truthy = false)
      ∧ (login testEnv emptyEmailRequest [alice]).trace
        = [.next (some (.appError ⟨"Please provide email and password", some 400⟩))] :=
  ⟨Or.inl (by decide),
    (login_missing_credentials testEnv emptyEmailRequest [alice] (Or.inl (by decide))).1⟩

set_option maxRecDepth 100000 in
/-- Witness for C5: a login for a stored user with a wrong password. -/
theorem login_credentials_witness :
    (login testEnv wrongLoginRequest [alice]).trace
      = [.db (.findOneByEmail (.string "alice@example.com")),
          .correctPassword (.string "guess") (.string "hash-of-secret"),
          .next (some loginError)] :=
  (login_credentials testEnv wrongLoginRequest [alice] (by decide) (by decide) rfl).2.1
    alice (by decide) rfl

set_option maxRecDepth 100000 in
/-- Witness for C2: the header `Bearer tok`, once for a user who changed the
password after the token was issued and once for a user who did not. -/
theorem protect_password_changed_witness :
    ((protect changedEnv bearerRequest [alice]).trace
          = [.jwtVerify "tok", .consoleLog, .db (.findById 1),
              .next (some (.appError
                ⟨"User recenlty changed password! Please log in again.", some 401⟩))]
        ∧ (protect changedEnv bearerRequest [alice]).req = bearerRequest
        ∧ (protect changedEnv bearerRequest [alice]).settled = .ok ())
      ∧ ((protect testEnv bearerRequest [alice]).trace
          = [.jwtVerify "tok", .consoleLog, .db (.findById 1), .next none]
        ∧ (protect testEnv bearerRequest [alice]).req = { bearerRequest with user := some alice }
        ∧ (protect testEnv bearerRequest [alice]).settled = .ok ()) :=
  ⟨(protect_password_changed changedEnv bearerRequest [alice] "tok" { id := 1, iat := 100 }
      alice (by decide) (by decide) rfl rfl (by decide)).1 rfl,
    (protect_password_changed testEnv bearerRequest [alice] "tok" { id := 1, iat := 100 }
      alice (by decide) (by decide) rfl rfl (by decide)).2 rfl⟩

set_option maxRecDepth 100000 in
/-- Witness for C6: a user with role `user` against two role lists. -/
theorem restrictTo_guard_witness :
    (restrictTo ["admin", "lead-guide"] { emptyRequest with user := some alice } [alice]).trace
        = [.next (some (.appError ⟨"You have no access to perform this action", some 403⟩))]
      ∧ (restrictTo ["admin", "user"] { emptyRequest with user := some alice } [alice]).trace
        = [.next none] :=
  ⟨(restrictTo_guard ["admin", "lead-guide"] { emptyRequest with user := some alice } [alice]
      alice rfl).2.1 (by decide),
    ((restrictTo_guard ["admin", "user"] { emptyRequest with user := some alice } [alice]
      alice rfl).2.2 (by decide)).1⟩

set_option maxRecDepth 100000 in
/-- Witness for C3: the header `Bearer tok` reaches verification, a `Basic`
header does not. -/
theorem protect_bearer_extraction_witness :
    (protect testEnv bearerRequest [alice]).trace.head? = some (.jwtVerify "tok")
      ∧ (protect testEnv { emptyRequest with authorization := some "Basic dXNlcg==" }
          [alice]).trace = [.next (some notLoggedIn)] :=
  ⟨(protect_bearer_extraction testEnv bearerRequest [alice]).2.2 "tok" (by decide) (by decide)
      (by decide),
    ((protect_bearer_extraction testEnv
      { emptyRequest with authorization := some "Basic dXNlcg==" } [alice]).2.1
      (by
        rintro ⟨h, t, ha, hs, _⟩
        cases ha
        revert hs
        decide)).1⟩

set_option maxRecDepth 100000 in
/-- Witness for C8: the token `plain` is redeemed for the one user who holds its
digest, and a second redemption at time 1500 gets the 400 error. -/
theorem resetPassword_single_use_witness :
    (resetPassword { testEnv with now := 1500 } resetRequest
        (resetPassword testEnv resetRequest [alicePending, bob]).users).trace
      = [.db (.findOneByResetToken "sha256-plain" 1500),
          .next (some (.appError ⟨"Token is invalid or has expired", some 400⟩))] :=
  ((resetPassword_single_use testEnv resetRequest resetRequest [alicePending, bob] 1500
      (by decide) rfl rfl rfl).2.2.2 (by decide)).2.1


end AuthController
